import Mathlib

/-!
Shallow embedding of the `picture_book_generator` repository pieces that the
frozen claims are about:

* `services/content_adapter.py` — the JSON-extraction-and-fallback stages of
  `generate_book_structure`, `generate_all_chapters` and
  `generate_social_captions` (the code that runs on the raw LLM response after
  the network call returned it).
* `services/knowledge_search.py` — the fan-in merge of `search`.
* `core/models.py` — the `BookConfig` pydantic model with its
  `chapter_count` bounds.

Python values flowing through the extraction code are modelled by the `Json`
inductive; the external `json.loads` library call is modelled by a small
recursive-descent parser (`json_loads`) following the grammar that Python's
`json` module accepts, including the CPython-specific constants `NaN`,
`Infinity` and `-Infinity` (a finite numeric token is kept as its leading
integer literal and a non-finite one as `Json.fnum`; no extraction code path
inspects a numeric value, only its dynamic type matters; interpreter
recursion limits on pathologically nested payloads are not modelled).
Python's dynamic-typing failures (`TypeError`,
`AttributeError`, `KeyError`) are modelled by the `PyErr` type: an extraction
function returns `Except PyErr r` where `.error` means the Python code would
raise that exception to its caller, and the internally caught
`json.JSONDecodeError` is the `none` result of `json_loads`.
-/

namespace PictureBookGen

/-- Model of a Python value produced by `json.loads` (plus `None` written by
the code itself).  Object fields are kept deduplicated, last value wins, as
Python's `dict` does for duplicate JSON keys.  `fnum` stands for the
non-finite floats produced by the CPython-specific constants `NaN`,
`Infinity` and `-Infinity`, which `json.loads` accepts by default; the
extraction code only ever observes their dynamic type (every modelled
operation treats `num` and `fnum` identically). -/
inductive Json where
  | null : Json
  | bool (b : Bool) : Json
  | num (n : Int) : Json
  | fnum : Json
  | str (s : String) : Json
  | arr (elems : List Json) : Json
  | obj (fields : List (String × Json)) : Json

/-- Python exceptions that can escape the extraction code. -/
inductive PyErr where
  | typeError
  | attributeError
  | keyError
  | indexError
deriving DecidableEq, Repr

/-- Whitespace accepted between JSON tokens. -/
def isJsonWs (c : Char) : Bool :=
  c = ' ' || c = '\t' || c = '\n' || c = '\r'

/-- Drop leading JSON whitespace. -/
def skipWs : List Char → List Char
  | [] => []
  | c :: cs => if isJsonWs c then skipWs cs else c :: cs

/-- Hexadecimal digit value, for `\u` escapes. -/
def hexVal (c : Char) : Option Nat :=
  if '0' ≤ c ∧ c ≤ '9' then some (c.toNat - 48)
  else if 'a' ≤ c ∧ c ≤ 'f' then some (c.toNat - 87)
  else if 'A' ≤ c ∧ c ≤ 'F' then some (c.toNat - 55)
  else none

/-- Body of a JSON string after the opening quote: returns the decoded
characters and the input remaining after the closing quote. -/
def parseStringBody : Nat → List Char → Option (List Char × List Char)
  | 0, _ => none
  | _ + 1, [] => none
  | _ + 1, '"' :: rest => some ([], rest)
  | fuel + 1, '\\' :: esc :: rest =>
    match esc with
    | '"' => (parseStringBody fuel rest).map (fun p => ('"' :: p.1, p.2))
    | '\\' => (parseStringBody fuel rest).map (fun p => ('\\' :: p.1, p.2))
    | '/' => (parseStringBody fuel rest).map (fun p => ('/' :: p.1, p.2))
    | 'b' => (parseStringBody fuel rest).map (fun p => (Char.ofNat 8 :: p.1, p.2))
    | 'f' => (parseStringBody fuel rest).map (fun p => (Char.ofNat 12 :: p.1, p.2))
    | 'n' => (parseStringBody fuel rest).map (fun p => ('\n' :: p.1, p.2))
    | 'r' => (parseStringBody fuel rest).map (fun p => ('\r' :: p.1, p.2))
    | 't' => (parseStringBody fuel rest).map (fun p => ('\t' :: p.1, p.2))
    | 'u' =>
      match rest with
      | a :: b :: c :: d :: rest2 =>
        match hexVal a, hexVal b, hexVal c, hexVal d with
        | some ha, some hb, some hc, some hd =>
          (parseStringBody fuel rest2).map
            (fun p => (Char.ofNat (((ha * 16 + hb) * 16 + hc) * 16 + hd) :: p.1, p.2))
        | _, _, _, _ => none
      | _ => none
    | _ => none
  | fuel + 1, c :: rest =>
    if c.toNat < 32 then none
    else (parseStringBody fuel rest).map (fun p => (c :: p.1, p.2))

/-- Numeric value of a run of decimal digits. -/
def digitsVal (l : List Char) : Nat :=
  l.foldl (fun a c => a * 10 + (c.toNat - 48)) 0

/-- Integer part of a JSON number (no sign): `0`, or a nonzero digit followed
by digits; a leading zero followed by another digit is rejected. -/
def parseIntPart : List Char → Option (Nat × List Char)
  | [] => none
  | c :: rest =>
    if c = '0' then
      match rest with
      | d :: _ => if d.isDigit then none else some (0, rest)
      | [] => some (0, [])
    else if c.isDigit then
      some (digitsVal (c :: rest.takeWhile Char.isDigit), rest.dropWhile Char.isDigit)
    else none

/-- Optional fraction part `.digits`; the fractional digits are consumed and
discarded (the model keeps only the integer part of a number). -/
def parseFracPart : List Char → Option (List Char)
  | '.' :: rest =>
    if (rest.takeWhile Char.isDigit).isEmpty then none
    else some (rest.dropWhile Char.isDigit)
  | l => some l

/-- Optional exponent part `e[+-]digits`, consumed and discarded. -/
def parseExpPart : List Char → Option (List Char)
  | [] => some []
  | c :: rest =>
    if c = 'e' ∨ c = 'E' then
      let rest2 := match rest with
        | s :: r => if s = '+' ∨ s = '-' then r else s :: r
        | [] => []
      if (rest2.takeWhile Char.isDigit).isEmpty then none
      else some (rest2.dropWhile Char.isDigit)
    else some (c :: rest)

/-- Unsigned JSON number. -/
def parseNumberPos (l : List Char) : Option (Nat × List Char) :=
  match parseIntPart l with
  | none => none
  | some (n, r1) =>
    match parseFracPart r1 with
    | none => none
    | some r2 =>
      match parseExpPart r2 with
      | none => none
      | some r3 => some (n, r3)

/-- JSON number with optional leading minus sign. -/
def parseNumber : List Char → Option (Int × List Char)
  | '-' :: rest => (parseNumberPos rest).map (fun p => (-(p.1 : Int), p.2))
  | l => (parseNumberPos l).map (fun p => ((p.1 : Int), p.2))

/-- Insert a key into an object field list, replacing an existing binding
(Python `dict` semantics for duplicate JSON keys: last value wins). -/
def insertKey : List (String × Json) → String → Json → List (String × Json)
  | [], k, v => [(k, v)]
  | (k0, v0) :: rest, k, v =>
    if k0 = k then (k0, v) :: rest else (k0, v0) :: insertKey rest k v

mutual

/-- One JSON value, with leading whitespace allowed; returns the value and the
remaining input.  The head-character dispatch is written as an `if` chain
(equivalent to matching on the first character: an input that starts like a
keyword but does not complete it fails, exactly as the number fallthrough
would).  Besides the JSON grammar, the constants `NaN`, `Infinity` and
`-Infinity` are accepted, as CPython's `json.loads` does by default. -/
def parseValue : Nat → List Char → Option (Json × List Char)
  | 0, _ => none
  | fuel + 1, l =>
    match skipWs l with
    | [] => none
    | c :: rest =>
      if c = '\x7b' then
        match skipWs rest with
        | [] => (parseObjRest fuel [] []).map (fun p => (Json.obj p.1, p.2))
        | c2 :: l2 =>
          if c2 = '\x7d' then some (Json.obj [], l2)
          else (parseObjRest fuel (c2 :: l2) []).map (fun p => (Json.obj p.1, p.2))
      else if c = '[' then
        match skipWs rest with
        | [] => (parseArrRest fuel [] []).map (fun p => (Json.arr p.1, p.2))
        | c2 :: l2 =>
          if c2 = ']' then some (Json.arr [], l2)
          else (parseArrRest fuel (c2 :: l2) []).map (fun p => (Json.arr p.1, p.2))
      else if c = '"' then
        (parseStringBody (rest.length + 1) rest).map
          (fun p => (Json.str (String.mk p.1), p.2))
      else if c = 't' then
        match rest with
        | 'r' :: 'u' :: 'e' :: r => some (Json.bool true, r)
        | _ => none
      else if c = 'f' then
        match rest with
        | 'a' :: 'l' :: 's' :: 'e' :: r => some (Json.bool false, r)
        | _ => none
      else if c = 'n' then
        match rest with
        | 'u' :: 'l' :: 'l' :: r => some (Json.null, r)
        | _ => none
      else if c = 'N' then
        match rest with
        | 'a' :: 'N' :: r => some (Json.fnum, r)
        | _ => none
      else if c = 'I' then
        match rest with
        | 'n' :: 'f' :: 'i' :: 'n' :: 'i' :: 't' :: 'y' :: r => some (Json.fnum, r)
        | _ => none
      else if c = '-' then
        match rest with
        | 'I' :: 'n' :: 'f' :: 'i' :: 'n' :: 'i' :: 't' :: 'y' :: r => some (Json.fnum, r)
        | _ => (parseNumber (c :: rest)).map (fun p => (Json.num p.1, p.2))
      else (parseNumber (c :: rest)).map (fun p => (Json.num p.1, p.2))

/-- Members of a non-empty object, entered just after `{` or after a `,`. -/
def parseObjRest : Nat → List Char → List (String × Json) →
    Option (List (String × Json) × List Char)
  | 0, _, _ => none
  | fuel + 1, l, acc =>
    match skipWs l with
    | '"' :: rest =>
      match parseStringBody (rest.length + 1) rest with
      | none => none
      | some (key, r1) =>
        match skipWs r1 with
        | ':' :: r2 =>
          match parseValue fuel r2 with
          | none => none
          | some (v, r3) =>
            let acc2 := insertKey acc (String.mk key) v
            match skipWs r3 with
            | ',' :: r4 => parseObjRest fuel r4 acc2
            | '\x7d' :: r4 => some (acc2, r4)
            | _ => none
        | _ => none
    | _ => none

/-- Elements of a non-empty array, entered just after `[` or after a `,`. -/
def parseArrRest : Nat → List Char → List Json → Option (List Json × List Char)
  | 0, _, _ => none
  | fuel + 1, l, acc =>
    match parseValue fuel l with
    | none => none
    | some (v, r) =>
      match skipWs r with
      | ',' :: r2 => parseArrRest fuel r2 (acc ++ [v])
      | ']' :: r2 => some (acc ++ [v], r2)
      | _ => none

end

/-- Model of Python's `json.loads`: parse one JSON document, requiring only
whitespace after it; `none` models a raised `json.JSONDecodeError`. -/
def json_loads (s : String) : Option Json :=
  match parseValue (2 * s.data.length + 2) s.data with
  | some (j, rest) => if skipWs rest = [] then some j else none
  | none => none

/-! ### Python dynamic operations

Each models the behaviour of the corresponding Python expression on a value
of unknown dynamic type, including the exception it raises on a value of the
wrong type. -/

/-- Lookup in an object field list (fields are deduplicated at parse time). -/
def dictLookup (kvs : List (String × Json)) (key : String) : Option Json :=
  (kvs.find? (fun kv => kv.1 = key)).map (fun kv => kv.2)

/-- Python `d.get(key, dflt)` on a known `dict`. -/
def dictGetD (kvs : List (String × Json)) (key : String) (dflt : Json) : Json :=
  match dictLookup kvs key with
  | some v => v
  | none => dflt

/-- Python `x.get(key, dflt)`: only a `dict` has `.get`; every other value
raises `AttributeError`. -/
def pyGetD (x : Json) (key : String) (dflt : Json) : Except PyErr Json :=
  match x with
  | Json.obj kvs => Except.ok (dictGetD kvs key dflt)
  | _ => Except.error PyErr.attributeError

/-- Python `len(x)`: defined for `str`, `list` and `dict`; `TypeError`
otherwise (numbers, booleans, `None`). -/
def pyLen : Json → Except PyErr Nat
  | Json.str s => Except.ok s.data.length
  | Json.arr xs => Except.ok xs.length
  | Json.obj kvs => Except.ok kvs.length
  | _ => Except.error PyErr.typeError

/-- Python `x.extend(extra)` followed by reading `x`: only a `list` has an
`.extend` attribute; every other value raises `AttributeError`. -/
def pyExtend (x : Json) (extra : List Json) : Except PyErr Json :=
  match x with
  | Json.arr xs => Except.ok (Json.arr (xs ++ extra))
  | _ => Except.error PyErr.attributeError

/-- Python `x[i]` for a non-negative integer index `i`: `list` and `str`
index positionally (`IndexError` out of range), a `dict` raises `KeyError`
for an integer key absent from a JSON object, and other values raise
`TypeError` (not subscriptable). -/
def pySubscript (x : Json) (i : Nat) : Except PyErr Json :=
  match x with
  | Json.arr xs =>
    match xs.get? i with
    | some v => Except.ok v
    | none => Except.error PyErr.indexError
  | Json.str s =>
    match s.data.get? i with
    | some c => Except.ok (Json.str (String.mk [c]))
    | none => Except.error PyErr.indexError
  | Json.obj _ => Except.error PyErr.keyError
  | _ => Except.error PyErr.typeError

/-- Python `x[:n]` for a non-negative `n`: slices of `list` and `str`;
a `dict` (unhashable slice key) and other values raise `TypeError`. -/
def pySliceTake (x : Json) (n : Nat) : Except PyErr Json :=
  match x with
  | Json.arr xs => Except.ok (Json.arr (xs.take n))
  | Json.str s => Except.ok (Json.str (String.mk (s.data.take n)))
  | _ => Except.error PyErr.typeError

/-! ### Python string scanning used by the extraction code -/

/-- Scan for the first occurrence of `c`, carrying the current index. -/
def pyFindAux (c : Char) : List Char → Nat → Option Nat
  | [], _ => none
  | x :: xs, i => if x = c then some i else pyFindAux c xs (i + 1)

/-- Python `s.find(c)`: index of the first occurrence, `None` standing for
Python's `-1` result. -/
def pyFind (s : String) (c : Char) : Option Nat :=
  pyFindAux c s.data 0

/-- Scan for the last occurrence of `c`, carrying the current index and the
best match so far. -/
def pyRfindAux (c : Char) : List Char → Nat → Option Nat → Option Nat
  | [], _, best => best
  | x :: xs, i, best => pyRfindAux c xs (i + 1) (if x = c then some i else best)

/-- Python `s.rfind(c)`: index of the last occurrence, `None` standing for
Python's `-1` result. -/
def pyRfind (s : String) (c : Char) : Option Nat :=
  pyRfindAux c s.data 0 none

/-- Python `s[start:stop]` for non-negative `start`/`stop` (out-of-range
bounds clamp, and `stop ≤ start` yields the empty string, as in Python). -/
def pySlice (s : String) (start stop : Nat) : String :=
  String.mk ((s.data.drop start).take (stop - start))

/-- The `start = response.find("\x7b"); end = response.rfind("\x7d")`
pattern shared by all three extraction operations: the slice
`response[start:end+1]` when both braces are found, `none` otherwise. -/
def braceSlice (response : String) : Option String :=
  match pyFind response '\x7b', pyRfind response '\x7d' with
  | some s, some e => some (pySlice response s (e + 1))
  | _, _ => none

/-! ### Data model (`utils/config.py`, `core/models.py`, service state) -/

/-- Languages supported by the `Language` enum in `utils/config.py`. -/
inductive Language where
  | chinese
  | english
  | japanese
  | korean
deriving DecidableEq, Repr

/-- Fields of `Settings` relevant to `ContentAdapterService` (the full
pydantic settings object carries API keys and model names; the extraction
stages never read any of them). -/
structure Settings where
  default_llm_provider : String
  max_tokens : Int
deriving DecidableEq, Repr

/-- State of a `ContentAdapterService` instance: its settings, the chosen
provider and whether the lazily created LLM client exists yet. -/
structure ContentAdapterService where
  settings : Settings
  provider : String
  client_initialized : Bool
deriving DecidableEq, Repr

/-- A concrete service instance, used by concrete-input theorems. -/
def defaultService : ContentAdapterService :=
  { settings := { default_llm_provider := "anthropic", max_tokens := 4096 },
    provider := "anthropic",
    client_initialized := false }

/-- Result dict of `generate_book_structure`: keys `title`, `summary`,
`chapters`, each holding whatever Python value the code put there. -/
structure BookStructureResult where
  title : Json
  summary : Json
  chapters : Json

/-- One element of the list returned by `generate_all_chapters`. -/
structure ChapterContentResult where
  content : Json
  knowledge_points : Json
  illustration_prompt : Json

/-- Result dict of `generate_social_captions`: keys `zh` and `en`. -/
structure CaptionPairResult where
  zh : Json
  en : Json

/-! ### Fallback strings (verbatim from `content_adapter.py`) -/

/-- Default title `f"探索\x7btopic\x7d的奇妙世界"`. -/
def fallback_title (topic : String) : String :=
  "探索" ++ topic ++ "的奇妙世界"

/-- Default summary built from topic and age range. -/
def fallback_summary (topic : String) (age_range : Int × Int) : String :=
  "一本为" ++ toString age_range.1 ++ "-" ++ toString age_range.2 ++
    "岁儿童准备的关于" ++ topic ++ "的趣味绘本。"

/-- Generic chapter-title placeholder `f"第\x7bi+1\x7d章"` for index `i`. -/
def zh_chapter_title (i : Nat) : String :=
  "第" ++ toString (i + 1) ++ "章"

/-- Placeholder body used inside the parse path when the model returned too
few chapter entries. -/
def zh_chapter_filler (topic : String) : String :=
  "这是关于" ++ topic ++ "的精彩内容。"

/-- Placeholder body for chapter `i` used when parsing failed entirely. -/
def zh_chapter_fallback_body (topic : String) (i : Nat) : String :=
  "这是关于" ++ topic ++ "的第" ++ toString (i + 1) ++ "章内容。"

/-- Default Chinese caption. -/
def zh_caption_default (topic : String) : String :=
  "一本关于" ++ topic ++ "的儿童科普绘本，适合7-10岁阅读。"

/-- Default English caption. -/
def en_caption_default (topic : String) : String :=
  "A fun picture book about " ++ topic ++ " for kids ages 7-10."

/-! ### `generate_book_structure` (content_adapter.py lines 244-302)

Only the extraction stage is modelled: the prompt construction and the
`_call_llm` network call are external, and `response` is the raw text they
produced.  `language` is a parameter of the method; the extraction stage
never reads it (it only feeds the prompt). -/

/-- Fallback record returned when no brace pair is found or parsing fails. -/
def structure_fallback (topic : String) (age_range : Int × Int)
    (chapter_count : Nat) : BookStructureResult :=
  { title := Json.str (fallback_title topic),
    summary := Json.str (fallback_summary topic age_range),
    chapters :=
      Json.arr ((List.range chapter_count).map (fun i => Json.str (zh_chapter_title i))) }

/-- Post-parse normalization of `generate_book_structure`: get `chapters`
(default `[]`), pad with generic titles when too few, then build the result
dict, truncating `chapters` to `chapter_count`.  Note the `summary` default
here is the empty string, and `age_range` is not consulted on this path. -/
def structure_success_path (topic : String) (chapter_count : Nat)
    (result : Json) : Except PyErr BookStructureResult :=
  match pyGetD result "chapters" (Json.arr []) with
  | Except.error e => Except.error e
  | Except.ok chapters =>
    match pyLen chapters with
    | Except.error e => Except.error e
    | Except.ok n =>
      match (if n < chapter_count then
               pyExtend chapters
                 ((List.range' n (chapter_count - n)).map
                   (fun i => Json.str (zh_chapter_title i)))
             else Except.ok chapters) with
      | Except.error e => Except.error e
      | Except.ok padded =>
        match pyGetD result "title" (Json.str (fallback_title topic)) with
        | Except.error e => Except.error e
        | Except.ok title =>
          match pyGetD result "summary" (Json.str "") with
          | Except.error e => Except.error e
          | Except.ok summary =>
            match pySliceTake padded chapter_count with
            | Except.error e => Except.error e
            | Except.ok truncated => Except.ok ⟨title, summary, truncated⟩

/-- Extraction stage of `generate_book_structure`. -/
def generate_book_structure (self : ContentAdapterService) (topic : String)
    (language : Language) (age_range : Int × Int) (chapter_count : Nat)
    (response : String) : Except PyErr BookStructureResult :=
  match braceSlice response with
  | none => Except.ok (structure_fallback topic age_range chapter_count)
  | some sub =>
    match json_loads sub with
    | none => Except.ok (structure_fallback topic age_range chapter_count)
    | some result => structure_success_path topic chapter_count result

/-! ### `generate_all_chapters` (content_adapter.py lines 304-391) -/

/-- Body of the `for i in range(chapter_count)` loop: note `len(chapters)` is
re-evaluated on every iteration, so a non-sized `chapters` value only raises
once the loop actually runs. -/
def build_chapter (topic : String) (include_illustration : Bool)
    (chapters : Json) (i : Nat) : Except PyErr ChapterContentResult :=
  match pyLen chapters with
  | Except.error e => Except.error e
  | Except.ok n =>
    if i < n then
      match pySubscript chapters i with
      | Except.error e => Except.error e
      | Except.ok ch =>
        match pyGetD ch "content" (Json.str "") with
        | Except.error e => Except.error e
        | Except.ok c =>
          match pyGetD ch "knowledge_points" (Json.arr []) with
          | Except.error e => Except.error e
          | Except.ok kp =>
            match (if include_illustration then
                     pyGetD ch "illustration_prompt" Json.null
                   else Except.ok Json.null) with
            | Except.error e => Except.error e
            | Except.ok ip => Except.ok ⟨c, kp, ip⟩
    else
      Except.ok ⟨Json.str (zh_chapter_filler topic), Json.arr [], Json.null⟩

/-- Run `f` on `i, i+1, ..., i+k-1` in order, collecting the results and
stopping at the first exception (the Python `for`-append loop). -/
def exceptMapRange {α : Type} (f : Nat → Except PyErr α) : Nat → Nat → Except PyErr (List α)
  | _, 0 => Except.ok []
  | i, k + 1 =>
    match f i with
    | Except.error e => Except.error e
    | Except.ok x =>
      match exceptMapRange f (i + 1) k with
      | Except.error e => Except.error e
      | Except.ok xs => Except.ok (x :: xs)

/-- Post-parse normalization of `generate_all_chapters`. -/
def chapters_success_path (topic : String) (include_illustration : Bool)
    (chapter_count : Nat) (result : Json) : Except PyErr (List ChapterContentResult) :=
  match pyGetD result "chapters" (Json.arr []) with
  | Except.error e => Except.error e
  | Except.ok chapters =>
    exceptMapRange (build_chapter topic include_illustration chapters) 0 chapter_count

/-- Full-fallback chapter list returned when parsing fails entirely. -/
def chapters_full_fallback (topic : String) (count : Nat) : List ChapterContentResult :=
  (List.range count).map
    (fun i => ⟨Json.str (zh_chapter_fallback_body topic i), Json.arr [], Json.null⟩)

/-- Extraction stage of `generate_all_chapters`; `chapter_count` is
`len(chapter_titles)`. -/
def generate_all_chapters (self : ContentAdapterService) (topic : String)
    (chapter_titles : List String) (language : Language) (age_range : Int × Int)
    (include_illustration : Bool) (response : String) :
    Except PyErr (List ChapterContentResult) :=
  match braceSlice response with
  | none => Except.ok (chapters_full_fallback topic chapter_titles.length)
  | some sub =>
    match json_loads sub with
    | none => Except.ok (chapters_full_fallback topic chapter_titles.length)
    | some result =>
      chapters_success_path topic include_illustration chapter_titles.length result

/-! ### `generate_social_captions` (content_adapter.py lines 189-242) -/

/-- Fallback caption pair. -/
def captions_fallback (topic : String) : CaptionPairResult :=
  ⟨Json.str (zh_caption_default topic), Json.str (en_caption_default topic)⟩

/-- Post-parse normalization of `generate_social_captions`. -/
def captions_success_path (topic : String) (result : Json) :
    Except PyErr CaptionPairResult :=
  match pyGetD result "zh" (Json.str (zh_caption_default topic)) with
  | Except.error e => Except.error e
  | Except.ok z =>
    match pyGetD result "en" (Json.str (en_caption_default topic)) with
    | Except.error e => Except.error e
    | Except.ok en => Except.ok ⟨z, en⟩

/-- Extraction stage of `generate_social_captions`; `book_title`, `summary`
and `language` only feed the prompt. -/
def generate_social_captions (self : ContentAdapterService) (topic : String)
    (book_title : String) (summary : String) (language : Language)
    (response : String) : Except PyErr CaptionPairResult :=
  match braceSlice response with
  | none => Except.ok (captions_fallback topic)
  | some sub =>
    match json_loads sub with
    | none => Except.ok (captions_fallback topic)
    | some result => captions_success_path topic result

/-! ### `KnowledgeSearchService.search` (knowledge_search.py lines 29-72)

The per-branch network calls run under `asyncio.gather(*tasks,
return_exceptions=True)`; the merge loop receives one outcome per branch,
either the branch's result dict or the exception it raised.  The merge is
modelled over that outcome list. -/

/-- Outcome of one gathered search branch: its `(content, sources)` result
dict, or the exception object `gather` returned for it. -/
inductive BranchOutcome where
  | ok (content : List String) (sources : List String)
  | exn
deriving DecidableEq, Repr

/-- Result dict of `search`. -/
structure SearchResult where
  topic : String
  content : List String
  sources : List String
deriving DecidableEq, Repr

/-- One iteration of the merge loop: `isinstance(result, Exception)` branches
are skipped, others have their content and sources appended. -/
def mergeStep (acc : SearchResult) (o : BranchOutcome) : SearchResult :=
  match o with
  | BranchOutcome.exn => acc
  | BranchOutcome.ok c s =>
    { acc with content := acc.content ++ c, sources := acc.sources ++ s }

/-- `KnowledgeSearchService.search`, given the gathered branch outcomes. -/
def search (topic : String) (outcomes : List BranchOutcome) : SearchResult :=
  outcomes.foldl mergeStep { topic := topic, content := [], sources := [] }

/-! ### `BookConfig` (core/models.py lines 10-17) -/

/-- Pydantic validation failure for the declared field constraints. -/
inductive ValidationError where
  | chapter_count_out_of_range
deriving DecidableEq, Repr

/-- The `BookConfig` pydantic model. -/
structure BookConfig where
  topic : String
  language : Language
  age_range : Int × Int
  chapter_count : Int
  include_illustrations : Bool
deriving DecidableEq, Repr

/-- Construction of a `BookConfig`: pydantic enforces the declared
`chapter_count` bounds `ge=3, le=10` and rejects out-of-range values with a
validation error. -/
def BookConfig.validate (topic : String) (language : Language)
    (age_range : Int × Int) (chapter_count : Int)
    (include_illustrations : Bool) : Except ValidationError BookConfig :=
  if 3 ≤ chapter_count ∧ chapter_count ≤ 10 then
    Except.ok ⟨topic, language, age_range, chapter_count, include_illustrations⟩
  else Except.error ValidationError.chapter_count_out_of_range

/-! ### Derived views and normalization helpers used in statements -/

/-! ### Views of the parsed payload, and well-typedness predicates

The extraction code trusts the dynamic type of the parsed `chapters` value;
these predicates on the raw response say that the payload, when it parses at
all, carries the shape the code expects.  They are decidable and computed
directly from `braceSlice` and `json_loads`. -/

/-- The payload the extraction code will work on: `none` when no brace pair
is found or `json.loads` raises. -/
def parsed_payload (response : String) : Option Json :=
  match braceSlice response with
  | none => none
  | some sub => json_loads sub

/-- True when the operation takes its full-fallback path. -/
def parse_failed (response : String) : Bool :=
  (parsed_payload response).isNone

/-- The list the code binds to `chapters` on the parse path, provided it has
the expected type: the payload is an object, and its `chapters` key is absent
(Python default `[]`) or bound to a list. -/
def parsed_chapters_list (response : String) : Option (List Json) :=
  match parsed_payload response with
  | some (Json.obj kvs) =>
    match dictLookup kvs "chapters" with
    | none => some []
    | some (Json.arr cs) => some cs
    | some _ => none
  | _ => none

/-- Payload shape expected by `generate_book_structure`. -/
def structure_payload_well_typed (response : String) : Bool :=
  parse_failed response || (parsed_chapters_list response).isSome

/-- Payload shape expected by `generate_all_chapters` for a requested count
of `chapter_count` chapters: additionally every chapter entry the loop will
access (index below `chapter_count`) must be an object; entries beyond the
requested count are never touched and are unconstrained. -/
def chapters_payload_well_typed (chapter_count : Nat) (response : String) : Bool :=
  parse_failed response ||
    (match parsed_chapters_list response with
     | none => false
     | some cs =>
       (cs.take chapter_count).all
         (fun e => match e with | Json.obj _ => true | _ => false))

/-- Padded-then-truncated chapter list of the parse path. -/
def normalize_chapters (xs : List Json) (n : Nat) : List Json :=
  (if xs.length < n then
     xs ++ (List.range' xs.length (n - xs.length)).map
       (fun i => Json.str (zh_chapter_title i))
   else xs).take n

/-- Field list of an object entry (total helper for statements; the
well-typedness hypothesis guarantees the entry is an object). -/
def objFields : Json → List (String × Json)
  | Json.obj kvs => kvs
  | _ => []

/-- Per-index description of the parse path of `generate_all_chapters`. -/
def chapter_at (topic : String) (include_illustration : Bool)
    (xs : List Json) (i : Nat) : ChapterContentResult :=
  if i < xs.length then
    ⟨dictGetD (objFields (xs.getD i Json.null)) "content" (Json.str ""),
     dictGetD (objFields (xs.getD i Json.null)) "knowledge_points" (Json.arr []),
     if include_illustration then
       dictGetD (objFields (xs.getD i Json.null)) "illustration_prompt" Json.null
     else Json.null⟩
  else ⟨Json.str (zh_chapter_filler topic), Json.arr [], Json.null⟩

/-- Test for the one value that makes a caption field empty. -/
def json_is_empty_str : Json → Bool
  | Json.str s => s = ""
  | _ => false

/-- Field list of the parsed payload (empty when there is no payload; the
payload is an object whenever it exists, by `parsed_payload_obj`). -/
def payload_obj_fields (response : String) : List (String × Json) :=
  match parsed_payload response with
  | some (Json.obj kvs) => kvs
  | _ => []

/-- True when the parsed payload explicitly binds `key` to the empty string
(the only way `generate_social_captions` can emit an empty field). -/
def caption_field_empty_in_payload (response : String) (key : String) : Bool :=
  match dictLookup (payload_obj_fields response) key with
  | some v => json_is_empty_str v
  | none => false

/-- Content contributed by one branch to the merge (nothing for a failed
branch). -/
def branchContent : BranchOutcome → List String
  | BranchOutcome.ok c _ => c
  | BranchOutcome.exn => []

/-- Sources contributed by one branch to the merge. -/
def branchSources : BranchOutcome → List String
  | BranchOutcome.ok _ s => s
  | BranchOutcome.exn => []

/-! ### Lemmas: first/last-occurrence scans -/

theorem pyFindAux_some (c : Char) :
    ∀ (l : List Char) (i j : Nat), pyFindAux c l i = some j →
      ∃ d, j = i + d ∧ l.get? d = some c ∧ ∀ k, k < d → l.get? k ≠ some c := by
  intro l
  induction l with
  | nil => intro i j h; simp [pyFindAux] at h
  | cons x xs ih =>
    intro i j h
    rw [pyFindAux] at h
    by_cases hx : x = c
    · rw [if_pos hx] at h
      obtain rfl : i = j := by injection h
      exact ⟨0, by omega, by simp [hx], fun k hk => absurd hk (Nat.not_lt_zero k)⟩
    · rw [if_neg hx] at h
      obtain ⟨d, hj, hget, hmin⟩ := ih (i + 1) j h
      refine ⟨d + 1, by omega, by simpa using hget, ?_⟩
      intro k hk
      cases k with
      | zero => simpa using hx
      | succ k2 => simpa using hmin k2 (by omega)

theorem pyFindAux_none (c : Char) :
    ∀ (l : List Char) (i : Nat), pyFindAux c l i = none → c ∉ l := by
  intro l
  induction l with
  | nil => intro i _; simp
  | cons x xs ih =>
    intro i h
    rw [pyFindAux] at h
    by_cases hx : x = c
    · rw [if_pos hx] at h; cases h
    · rw [if_neg hx] at h
      intro hmem
      rcases List.mem_cons.mp hmem with rfl | hm
      · exact hx rfl
      · exact ih (i + 1) h hm

theorem pyFind_some (s : String) (c : Char) (i : Nat) (h : pyFind s c = some i) :
    s.data.get? i = some c ∧ ∀ k, k < i → s.data.get? k ≠ some c := by
  obtain ⟨d, hd, hget, hmin⟩ := pyFindAux_some c s.data 0 i h
  obtain rfl : d = i := by omega
  exact ⟨hget, hmin⟩

theorem pyFind_none (s : String) (c : Char) (h : pyFind s c = none) :
    c ∉ s.data :=
  pyFindAux_none c s.data 0 h

theorem pyRfindAux_some (c : Char) :
    ∀ (l : List Char) (i : Nat) (best : Option Nat) (j : Nat),
      pyRfindAux c l i best = some j →
      (∃ d, j = i + d ∧ l.get? d = some c ∧ ∀ k, d < k → l.get? k ≠ some c) ∨
        (best = some j ∧ c ∉ l) := by
  intro l
  induction l with
  | nil => intro i best j h; exact Or.inr ⟨h, by simp⟩
  | cons x xs ih =>
    intro i best j h
    rw [pyRfindAux] at h
    rcases ih _ _ _ h with ⟨d, hj, hget, hmax⟩ | ⟨hbest, hnm⟩
    · left
      refine ⟨d + 1, by omega, by simpa using hget, ?_⟩
      intro k hk
      cases k with
      | zero => omega
      | succ k2 => simpa using hmax k2 (by omega)
    · by_cases hx : x = c
      · rw [if_pos hx] at hbest
        obtain rfl : i = j := by injection hbest
        left
        refine ⟨0, by omega, by simp [hx], ?_⟩
        intro k hk
        cases k with
        | zero => omega
        | succ k2 =>
          simp only [List.get?_cons_succ]
          intro hcontra
          exact hnm (List.get?_mem hcontra)
      · rw [if_neg hx] at hbest
        right
        refine ⟨hbest, ?_⟩
        intro hmem
        rcases List.mem_cons.mp hmem with rfl | hm
        · exact hx rfl
        · exact hnm hm

theorem pyRfindAux_none (c : Char) :
    ∀ (l : List Char) (i : Nat) (best : Option Nat),
      pyRfindAux c l i best = none → best = none ∧ c ∉ l := by
  intro l
  induction l with
  | nil => intro i best h; exact ⟨h, by simp⟩
  | cons x xs ih =>
    intro i best h
    rw [pyRfindAux] at h
    obtain ⟨hb, hnm⟩ := ih _ _ h
    by_cases hx : x = c
    · rw [if_pos hx] at hb; cases hb
    · rw [if_neg hx] at hb
      refine ⟨hb, ?_⟩
      intro hmem
      rcases List.mem_cons.mp hmem with rfl | hm
      · exact hx rfl
      · exact hnm hm

theorem pyRfind_some (s : String) (c : Char) (j : Nat) (h : pyRfind s c = some j) :
    s.data.get? j = some c ∧ ∀ k, j < k → s.data.get? k ≠ some c := by
  rcases pyRfindAux_some c s.data 0 none j h with ⟨d, hd, hget, hmax⟩ | ⟨hbest, _⟩
  · obtain rfl : d = j := by omega
    exact ⟨hget, hmax⟩
  · cases hbest

theorem pyRfind_none (s : String) (c : Char) (h : pyRfind s c = none) :
    c ∉ s.data :=
  (pyRfindAux_none c s.data 0 none h).2

/-! ### Lemmas: brace slicing -/

theorem braceSlice_none_spec (response : String) (h : braceSlice response = none) :
    '\x7b' ∉ response.data ∨ '\x7d' ∉ response.data := by
  unfold braceSlice at h
  rcases hf : pyFind response '\x7b' with _ | i
  · exact Or.inl (pyFind_none _ _ hf)
  · rcases hr : pyRfind response '\x7d' with _ | j
    · exact Or.inr (pyRfind_none _ _ hr)
    · rw [hf, hr] at h; cases h

theorem braceSlice_some_spec (response sub : String)
    (h : braceSlice response = some sub) :
    ∃ i j, response.data.get? i = some '\x7b' ∧
      (∀ k, k < i → response.data.get? k ≠ some '\x7b') ∧
      response.data.get? j = some '\x7d' ∧
      (∀ k, j < k → response.data.get? k ≠ some '\x7d') ∧
      sub = String.mk ((response.data.drop i).take (j + 1 - i)) := by
  unfold braceSlice at h
  rcases hf : pyFind response '\x7b' with _ | i <;>
    rcases hr : pyRfind response '\x7d' with _ | j <;>
      rw [hf, hr] at h
  · cases h
  · cases h
  · cases h
  · obtain ⟨hgi, hmin⟩ := pyFind_some _ _ _ hf
    obtain ⟨hgj, hmax⟩ := pyRfind_some _ _ _ hr
    obtain rfl : pySlice response i (j + 1) = sub := by injection h
    exact ⟨i, j, hgi, hmin, hgj, hmax, rfl⟩

theorem braceSlice_mem (response : String)
    (hl : '\x7b' ∈ response.data) (hr : '\x7d' ∈ response.data) :
    ∃ sub, braceSlice response = some sub := by
  rcases hb : braceSlice response with _ | sub
  · rcases braceSlice_none_spec response hb with hc | hc
    · exact absurd hl hc
    · exact absurd hr hc
  · exact ⟨sub, rfl⟩

theorem braceSlice_head (response sub : String)
    (h : braceSlice response = some sub) :
    sub.data = [] ∨ sub.data.head? = some '\x7b' := by
  obtain ⟨i, j, hgi, _, _, _, hsub⟩ := braceSlice_some_spec response sub h
  have hd : sub.data = (response.data.drop i).take (j + 1 - i) := by rw [hsub]
  rcases Nat.eq_zero_or_pos (j + 1 - i) with hz | hpos
  · left; rw [hd, hz]; rfl
  · right
    rw [hd]
    have h1 : ((response.data.drop i).take (j + 1 - i)).get? 0 =
        (response.data.drop i).get? 0 := List.get?_take hpos
    have h2 : (response.data.drop i).get? 0 = response.data.get? i := by
      simp [List.get?_drop]
    rw [← List.get?_zero, h1, h2, hgi]

/-! ### Lemmas: top-level parse shape -/

theorem skipWs_head_not_ws (x : Char) (l : List Char) (hx : isJsonWs x = false) :
    skipWs (x :: l) = x :: l := by
  rw [skipWs, hx]
  rfl

theorem json_loads_nil (s : String) (h : s.data = []) : json_loads s = none := by
  unfold json_loads
  rw [h]
  rfl

theorem parseValue_brace_obj (fuel : Nat) (t rest : List Char) (j : Json)
    (h : parseValue (fuel + 1) ('\x7b' :: t) = some (j, rest)) :
    ∃ kvs, j = Json.obj kvs := by
  rw [parseValue] at h
  simp only [skipWs_head_not_ws '\x7b' t (by decide)] at h
  rw [if_pos trivial] at h
  rcases hsw : skipWs t with _ | ⟨c2, l2⟩
  · rw [hsw] at h
    simp only [Option.map_eq_some', Prod.mk.injEq] at h
    obtain ⟨p, _, h2, _⟩ := h
    exact ⟨p.1, h2.symm⟩
  · rw [hsw] at h
    by_cases hc : c2 = '\x7d'
    · simp only [if_pos hc] at h
      injection h with h1
      injection h1 with h2
      exact ⟨[], h2.symm⟩
    · simp only [if_neg hc, Option.map_eq_some', Prod.mk.injEq] at h
      obtain ⟨p, _, h2, _⟩ := h
      exact ⟨p.1, h2.symm⟩

theorem json_loads_obj (s : String) (j : Json) (hh : s.data.head? = some '\x7b')
    (h : json_loads s = some j) : ∃ kvs, j = Json.obj kvs := by
  obtain ⟨t, hs⟩ : ∃ t, s.data = '\x7b' :: t := by
    cases hd : s.data with
    | nil => rw [hd] at hh; cases hh
    | cons a t2 =>
      rw [hd] at hh
      injection hh with hh2
      exact ⟨t2, by rw [hh2]⟩
  unfold json_loads at h
  rw [hs] at h
  rcases hpv : parseValue (2 * ('\x7b' :: t).length + 2) ('\x7b' :: t) with _ | ⟨j2, rest⟩
  · rw [hpv] at h; cases h
  · rw [hpv] at h
    have hj2 : j2 = j := by
      by_cases hws : skipWs rest = []
      · simp only [if_pos hws] at h; injection h
      · simp only [if_neg hws] at h; cases h
    have hfuel : 2 * ('\x7b' :: t).length + 2 = (2 * ('\x7b' :: t).length + 1) + 1 := rfl
    rw [hfuel] at hpv
    obtain ⟨kvs, hk⟩ := parseValue_brace_obj _ t rest j2 hpv
    exact ⟨kvs, hj2 ▸ hk ▸ rfl⟩

/-! ### Lemmas: rewriting the three operations through `parsed_payload` -/

theorem generate_book_structure_eq (self : ContentAdapterService) (topic : String)
    (language : Language) (age_range : Int × Int) (chapter_count : Nat)
    (response : String) :
    generate_book_structure self topic language age_range chapter_count response =
      match parsed_payload response with
      | none => Except.ok (structure_fallback topic age_range chapter_count)
      | some result => structure_success_path topic chapter_count result := by
  unfold generate_book_structure parsed_payload
  rcases hbs : braceSlice response with _ | sub
  · rfl
  · rcases hl : json_loads sub with _ | r <;> rfl

theorem generate_all_chapters_eq (self : ContentAdapterService) (topic : String)
    (chapter_titles : List String) (language : Language) (age_range : Int × Int)
    (include_illustration : Bool) (response : String) :
    generate_all_chapters self topic chapter_titles language age_range
        include_illustration response =
      match parsed_payload response with
      | none => Except.ok (chapters_full_fallback topic chapter_titles.length)
      | some result =>
        chapters_success_path topic include_illustration chapter_titles.length result := by
  unfold generate_all_chapters parsed_payload
  rcases hbs : braceSlice response with _ | sub
  · rfl
  · rcases hl : json_loads sub with _ | r <;> rfl

theorem generate_social_captions_eq (self : ContentAdapterService) (topic : String)
    (book_title : String) (summary : String) (language : Language)
    (response : String) :
    generate_social_captions self topic book_title summary language response =
      match parsed_payload response with
      | none => Except.ok (captions_fallback topic)
      | some result => captions_success_path topic result := by
  unfold generate_social_captions parsed_payload
  rcases hbs : braceSlice response with _ | sub
  · rfl
  · rcases hl : json_loads sub with _ | r <;> rfl

/-- The payload, when it exists, parses a brace slice whose first character
is `\x7b`, hence it is an object. -/
theorem parsed_payload_obj (response : String) (j : Json)
    (h : parsed_payload response = some j) : ∃ kvs, j = Json.obj kvs := by
  unfold parsed_payload at h
  rcases hbs : braceSlice response with _ | sub
  · rw [hbs] at h; cases h
  · rw [hbs] at h
    have h2 : json_loads sub = some j := h
    rcases braceSlice_head response sub hbs with hnil | hhead
    · rw [json_loads_nil sub hnil] at h2; cases h2
    · exact json_loads_obj sub j hhead h2

/-! ### Lemmas: the success path of `generate_book_structure` -/

theorem normalize_chapters_length (xs : List Json) (n : Nat) :
    (normalize_chapters xs n).length = n := by
  unfold normalize_chapters
  by_cases hlt : xs.length < n
  · rw [if_pos hlt]
    simp only [List.length_take, List.length_append, List.length_map,
      List.length_range']
    omega
  · rw [if_neg hlt]
    simp only [List.length_take]
    omega

theorem structure_success_path_arr (topic : String) (chapter_count : Nat)
    (kvs : List (String × Json)) (xs : List Json)
    (hch : dictGetD kvs "chapters" (Json.arr []) = Json.arr xs) :
    structure_success_path topic chapter_count (Json.obj kvs) =
      Except.ok
        ⟨dictGetD kvs "title" (Json.str (fallback_title topic)),
         dictGetD kvs "summary" (Json.str ""),
         Json.arr (normalize_chapters xs chapter_count)⟩ := by
  unfold structure_success_path normalize_chapters
  have h1 : pyGetD (Json.obj kvs) "chapters" (Json.arr []) =
      Except.ok (Json.arr xs) := by
    rw [show pyGetD (Json.obj kvs) "chapters" (Json.arr []) =
      Except.ok (dictGetD kvs "chapters" (Json.arr [])) from rfl, hch]
  rw [h1]
  by_cases hlt : xs.length < chapter_count
  · simp only [pyLen, if_pos hlt, pyExtend, pyGetD, pySliceTake]
  · simp only [pyLen, if_neg hlt, pyGetD, pySliceTake]

/-! ### Lemmas: the success path of `generate_all_chapters` -/

theorem build_chapter_ok (topic : String) (include_illustration : Bool)
    (xs : List Json) (i : Nat)
    (hobj : ∀ e, xs.get? i = some e → ∃ kv, e = Json.obj kv) :
    build_chapter topic include_illustration (Json.arr xs) i =
      Except.ok (chapter_at topic include_illustration xs i) := by
  unfold build_chapter chapter_at
  simp only [pyLen]
  by_cases hlt : i < xs.length
  · rw [if_pos hlt, if_pos hlt]
    obtain ⟨e, hget⟩ : ∃ e, xs.get? i = some e := by
      rw [List.get?_eq_get hlt]; exact ⟨_, rfl⟩
    obtain ⟨kv, rfl⟩ := hobj e hget
    have hgetD : xs.getD i Json.null = Json.obj kv := by
      unfold List.getD
      rw [hget]; rfl
    rw [show pySubscript (Json.arr xs) i =
        (match xs.get? i with
         | some v => Except.ok v
         | none => Except.error PyErr.indexError) from rfl, hget, hgetD]
    by_cases hill : include_illustration
    · simp only [if_pos hill, pyGetD]; rfl
    · simp only [if_neg hill, pyGetD]; rfl
  · rw [if_neg hlt, if_neg hlt]

theorem exceptMapRange_ok {α : Type} (f : Nat → Except PyErr α) (g : Nat → α) :
    ∀ (k i : Nat), (∀ j, i ≤ j → j < i + k → f j = Except.ok (g j)) →
      exceptMapRange f i k = Except.ok ((List.range' i k).map g) := by
  intro k
  induction k with
  | zero => intro i _; rfl
  | succ k2 ih =>
    intro i hf
    rw [exceptMapRange, hf i (Nat.le_refl i) (by omega),
      ih (i + 1) (fun j h1 h2 => hf j (by omega) (by omega)), List.range'_succ]
    rfl

theorem chapters_success_path_ok (topic : String) (include_illustration : Bool)
    (chapter_count : Nat) (kvs : List (String × Json)) (xs : List Json)
    (hch : dictGetD kvs "chapters" (Json.arr []) = Json.arr xs)
    (hobj : ∀ i, i < chapter_count → ∀ e, xs.get? i = some e →
      ∃ kv, e = Json.obj kv) :
    chapters_success_path topic include_illustration chapter_count (Json.obj kvs) =
      Except.ok ((List.range chapter_count).map
        (chapter_at topic include_illustration xs)) := by
  unfold chapters_success_path
  have h1 : pyGetD (Json.obj kvs) "chapters" (Json.arr []) =
      Except.ok (Json.arr xs) := by
    rw [show pyGetD (Json.obj kvs) "chapters" (Json.arr []) =
      Except.ok (dictGetD kvs "chapters" (Json.arr [])) from rfl, hch]
  rw [h1]
  change exceptMapRange (build_chapter topic include_illustration (Json.arr xs)) 0
      chapter_count = _
  rw [exceptMapRange_ok _ _ chapter_count 0
    (fun j hj1 hj2 => build_chapter_ok topic include_illustration xs j
      (fun e he => hobj j (by omega) e he))]
  rw [List.range_eq_range']

/-! ### Lemmas: the success path of `generate_social_captions` -/

theorem captions_success_path_obj (topic : String) (kvs : List (String × Json)) :
    captions_success_path topic (Json.obj kvs) =
      Except.ok
        ⟨dictGetD kvs "zh" (Json.str (zh_caption_default topic)),
         dictGetD kvs "en" (Json.str (en_caption_default topic))⟩ := rfl

/-! ### Lemmas: dictionary lookups -/

theorem dictGetD_of_none (kvs : List (String × Json)) (k : String) (d : Json)
    (h : dictLookup kvs k = none) : dictGetD kvs k d = d := by
  unfold dictGetD
  rw [h]

theorem dictGetD_of_some (kvs : List (String × Json)) (k : String) (d v : Json)
    (h : dictLookup kvs k = some v) : dictGetD kvs k d = v := by
  unfold dictGetD
  rw [h]

theorem parsed_chapters_list_spec (response : String) (cs : List Json)
    (h : parsed_chapters_list response = some cs) :
    ∃ kvs, parsed_payload response = some (Json.obj kvs) ∧
      dictGetD kvs "chapters" (Json.arr []) = Json.arr cs := by
  unfold parsed_chapters_list at h
  rcases hp : parsed_payload response with _ | j
  · rw [hp] at h; cases h
  · rw [hp] at h
    cases j with
    | null => cases h
    | bool b => cases h
    | num n => cases h
    | fnum => cases h
    | str s => cases h
    | arr xs => cases h
    | obj kvs =>
      refine ⟨kvs, rfl, ?_⟩
      have h2 : (match dictLookup kvs "chapters" with
          | none => some ([] : List Json)
          | some (Json.arr cs) => some cs
          | some _ => none) = some cs := h
      rcases hdl : dictLookup kvs "chapters" with _ | v
      · rw [hdl] at h2
        obtain rfl : cs = [] := by injection h2 with h3; rw [← h3]
        exact dictGetD_of_none kvs "chapters" (Json.arr []) hdl
      · rw [hdl] at h2
        cases v with
        | null => cases h2
        | bool b => cases h2
        | num n => cases h2
        | fnum => cases h2
        | str s => cases h2
        | obj kv2 => cases h2
        | arr cs2 =>
          injection h2 with h3
          rw [← h3]
          exact dictGetD_of_some kvs "chapters" (Json.arr []) (Json.arr cs2) hdl

/-! ### Lemmas: complete characterizations of the three operations -/

theorem generate_social_captions_ok (self : ContentAdapterService)
    (topic book_title summary : String) (language : Language) (response : String) :
    ∃ p, generate_social_captions self topic book_title summary language response =
      Except.ok p := by
  rcases hp : parsed_payload response with _ | j
  · refine ⟨captions_fallback topic, ?_⟩
    rw [generate_social_captions_eq, hp]
  · obtain ⟨kvs, rfl⟩ := parsed_payload_obj response j hp
    refine ⟨⟨dictGetD kvs "zh" (Json.str (zh_caption_default topic)),
      dictGetD kvs "en" (Json.str (en_caption_default topic))⟩, ?_⟩
    rw [generate_social_captions_eq, hp]
    rfl

theorem structure_extract_full (self : ContentAdapterService) (topic : String)
    (language : Language) (age_range : Int × Int) (chapter_count : Nat)
    (response : String) (h : structure_payload_well_typed response = true) :
    ∃ r xs,
      generate_book_structure self topic language age_range chapter_count response =
        Except.ok r ∧
      r.chapters = Json.arr xs ∧ xs.length = chapter_count ∧
      (parse_failed response = true →
        xs = (List.range chapter_count).map (fun i => Json.str (zh_chapter_title i))) ∧
      (∀ cs, parsed_chapters_list response = some cs →
        (cs.length < chapter_count →
          xs = cs ++ (List.range' cs.length (chapter_count - cs.length)).map
            (fun i => Json.str (zh_chapter_title i))) ∧
        (chapter_count ≤ cs.length → xs = cs.take chapter_count)) := by
  unfold structure_payload_well_typed at h
  rcases hp : parsed_payload response with _ | j
  · have hgen : generate_book_structure self topic language age_range chapter_count
        response = Except.ok (structure_fallback topic age_range chapter_count) := by
      rw [generate_book_structure_eq, hp]
    refine ⟨structure_fallback topic age_range chapter_count,
      (List.range chapter_count).map (fun i => Json.str (zh_chapter_title i)),
      hgen, rfl, by simp, fun _ => rfl, ?_⟩
    intro cs hcs
    unfold parsed_chapters_list at hcs
    rw [hp] at hcs
    cases hcs
  · have hpf : parse_failed response = false := by
      unfold parse_failed
      rw [hp]
      rfl
    rw [hpf] at h
    simp only [Bool.false_or] at h
    obtain ⟨cs, hcs⟩ := Option.isSome_iff_exists.mp h
    obtain ⟨kvs, hkvs, hch⟩ := parsed_chapters_list_spec response cs hcs
    rw [hp] at hkvs
    obtain rfl : j = Json.obj kvs := by injection hkvs
    have hgen : generate_book_structure self topic language age_range chapter_count
        response = structure_success_path topic chapter_count (Json.obj kvs) := by
      rw [generate_book_structure_eq, hp]
    rw [hgen, structure_success_path_arr topic chapter_count kvs cs hch]
    refine ⟨_, normalize_chapters cs chapter_count, rfl, rfl,
      normalize_chapters_length cs chapter_count, ?_, ?_⟩
    · intro hpf2
      rw [hpf] at hpf2
      cases hpf2
    · intro cs2 hcs2
      rw [hcs] at hcs2
      injection hcs2 with h3
      rw [← h3]
      constructor
      · intro hlt
        unfold normalize_chapters
        rw [if_pos hlt]
        have hlen : (cs ++ (List.range' cs.length (chapter_count - cs.length)).map
            (fun i => Json.str (zh_chapter_title i))).length = chapter_count := by
          simp only [List.length_append, List.length_map, List.length_range']
          omega
        exact List.take_of_length_le (le_of_eq hlen)
      · intro hge
        unfold normalize_chapters
        rw [if_neg (by omega)]

theorem chapters_extract_full (self : ContentAdapterService) (topic : String)
    (chapter_titles : List String) (language : Language) (age_range : Int × Int)
    (include_illustration : Bool) (response : String)
    (h : chapters_payload_well_typed chapter_titles.length response = true) :
    ∃ l,
      generate_all_chapters self topic chapter_titles language age_range
          include_illustration response = Except.ok l ∧
      l.length = chapter_titles.length ∧
      (parse_failed response = true →
        l = (List.range chapter_titles.length).map
          (fun i => ⟨Json.str (zh_chapter_fallback_body topic i), Json.arr [], Json.null⟩)) ∧
      (∀ cs, parsed_chapters_list response = some cs →
        l = (List.range chapter_titles.length).map
          (chapter_at topic include_illustration cs)) := by
  unfold chapters_payload_well_typed at h
  rcases hp : parsed_payload response with _ | j
  · have hgen : generate_all_chapters self topic chapter_titles language age_range
        include_illustration response =
        Except.ok (chapters_full_fallback topic chapter_titles.length) := by
      rw [generate_all_chapters_eq, hp]
    refine ⟨chapters_full_fallback topic chapter_titles.length, hgen, by
      simp [chapters_full_fallback], fun _ => rfl, ?_⟩
    intro cs hcs
    unfold parsed_chapters_list at hcs
    rw [hp] at hcs
    cases hcs
  · have hpf : parse_failed response = false := by
      unfold parse_failed
      rw [hp]
      rfl
    rw [hpf] at h
    simp only [Bool.false_or] at h
    rcases hcs : parsed_chapters_list response with _ | cs
    · rw [hcs] at h; cases h
    · rw [hcs] at h
      have hobj : ∀ i, i < chapter_titles.length → ∀ e, cs.get? i = some e →
          ∃ kv, e = Json.obj kv := by
        intro i hi e he
        have hmem : e ∈ cs.take chapter_titles.length := by
          have ht : (cs.take chapter_titles.length).get? i = some e := by
            rw [List.get?_take hi]
            exact he
          exact List.get?_mem ht
        have he2 := (List.all_eq_true.mp h) e hmem
        cases e with
        | obj kv => exact ⟨kv, rfl⟩
        | null => cases he2
        | bool b => cases he2
        | num n => cases he2
        | fnum => cases he2
        | str s => cases he2
        | arr a => cases he2
      obtain ⟨kvs, hkvs, hch⟩ := parsed_chapters_list_spec response cs hcs
      rw [hp] at hkvs
      obtain rfl : j = Json.obj kvs := by injection hkvs
      have hgen : generate_all_chapters self topic chapter_titles language age_range
          include_illustration response =
          chapters_success_path topic include_illustration chapter_titles.length
            (Json.obj kvs) := by
        rw [generate_all_chapters_eq, hp]
      rw [hgen, chapters_success_path_ok topic include_illustration
        chapter_titles.length kvs cs hch hobj]
      refine ⟨_, rfl, by simp, ?_, ?_⟩
      · intro hpf2
        rw [hpf] at hpf2
        cases hpf2
      · intro cs2 hcs2
        injection hcs2 with h3
        rw [← h3]

/-! ### Lemmas: caption emptiness -/

theorem payload_obj_fields_eq (response : String) (kvs : List (String × Json))
    (hp : parsed_payload response = some (Json.obj kvs)) :
    payload_obj_fields response = kvs := by
  unfold payload_obj_fields
  rw [hp]

theorem zh_caption_default_ne_empty (topic : String) :
    zh_caption_default topic ≠ "" := by
  intro h
  have h2 : (zh_caption_default topic).length = 0 := by rw [h]; rfl
  unfold zh_caption_default at h2
  rw [String.length_append, String.length_append] at h2
  have e1 : ("一本关于" : String).length = 4 := rfl
  rw [e1] at h2
  omega

theorem en_caption_default_ne_empty (topic : String) :
    en_caption_default topic ≠ "" := by
  intro h
  have h2 : (en_caption_default topic).length = 0 := by rw [h]; rfl
  unfold en_caption_default at h2
  rw [String.length_append, String.length_append] at h2
  have e1 : ("A fun picture book about " : String).length = 25 := rfl
  rw [e1] at h2
  omega

theorem caption_field_of_obj (response : String) (kvs : List (String × Json))
    (key : String) (dflt : Json)
    (hp : parsed_payload response = some (Json.obj kvs))
    (hpred : caption_field_empty_in_payload response key = false) :
    dictGetD kvs key dflt ≠ Json.str "" ∨ dflt = Json.str "" := by
  unfold caption_field_empty_in_payload at hpred
  rw [payload_obj_fields_eq response kvs hp] at hpred
  rcases hdl : dictLookup kvs key with _ | v
  · by_cases hd : dflt = Json.str ""
    · exact Or.inr hd
    · left
      rw [dictGetD_of_none kvs key dflt hdl]
      exact hd
  · left
    rw [dictGetD_of_some kvs key dflt v hdl]
    rw [hdl] at hpred
    have hpred2 : json_is_empty_str v = false := hpred
    cases v with
    | str s =>
      intro heq
      injection heq with hs
      rw [hs] at hpred2
      cases hpred2
    | null => intro heq; cases heq
    | bool b => intro heq; cases heq
    | num n => intro heq; cases heq
    | fnum => intro heq; cases heq
    | arr a => intro heq; cases heq
    | obj o => intro heq; cases heq

/-! ### Lemmas: the search merge -/

theorem search_foldl (outcomes : List BranchOutcome) :
    ∀ acc : SearchResult,
      outcomes.foldl mergeStep acc =
        { topic := acc.topic,
          content := acc.content ++ (outcomes.map branchContent).join,
          sources := acc.sources ++ (outcomes.map branchSources).join } := by
  induction outcomes with
  | nil => intro acc; simp
  | cons o os ih =>
    intro acc
    rw [List.foldl_cons, ih (mergeStep acc o)]
    cases o with
    | exn => simp [mergeStep, branchContent, branchSources]
    | ok c s => simp [mergeStep, branchContent, branchSources]

/-! ### Claim theorems -/

/-- C1 counterexample: the claimed guarantee does not hold for every raw
input: on a successfully parsed payload whose `chapters` value is the number
`0`, `len(chapters)` raises `TypeError`, so `generate_book_structure`
propagates an exception instead of returning a record with exactly
`chapter_count` chapters. -/
theorem c1_counterexample :
    generate_book_structure defaultService "恐龙" Language.chinese (7, 10) 1
      "\x7b\x22chapters\x22: 0\x7d" = Except.error PyErr.typeError := rfl

/-- C1 (amended): for every chapter count N and raw text whose payload, when
it parses, binds `chapters` to a list (or omits it), `generate_book_structure`
returns a record whose chapters list has length exactly N: too few parsed
chapters are padded with generic placeholder titles, too many are truncated
to the first N, and parse failure yields N placeholder titles. -/
theorem c1_chapter_count_exact (self : ContentAdapterService) (topic : String)
    (language : Language) (age_range : Int × Int) (chapter_count : Nat)
    (response : String) (h : structure_payload_well_typed response = true) :
    ∃ r xs,
      generate_book_structure self topic language age_range chapter_count response =
        Except.ok r ∧
      r.chapters = Json.arr xs ∧ xs.length = chapter_count ∧
      (parse_failed response = true →
        xs = (List.range chapter_count).map (fun i => Json.str (zh_chapter_title i))) ∧
      (∀ cs, parsed_chapters_list response = some cs →
        (cs.length < chapter_count →
          xs = cs ++ (List.range' cs.length (chapter_count - cs.length)).map
            (fun i => Json.str (zh_chapter_title i))) ∧
        (chapter_count ≤ cs.length → xs = cs.take chapter_count)) :=
  structure_extract_full self topic language age_range chapter_count response h

/-- C1 witness: a payload with two chapters and a requested count of three. -/
theorem c1_witness :
    ∃ r xs,
      generate_book_structure defaultService "spec" Language.english (7, 10) 3
          "\x7b\x22title\x22: \x22T\x22, \x22summary\x22: \x22S\x22, \x22chapters\x22: [\x22A\x22, \x22B\x22]\x7d" =
        Except.ok r ∧
      r.chapters = Json.arr xs ∧ xs.length = 3 ∧
      (parse_failed
          "\x7b\x22title\x22: \x22T\x22, \x22summary\x22: \x22S\x22, \x22chapters\x22: [\x22A\x22, \x22B\x22]\x7d" = true →
        xs = (List.range 3).map (fun i => Json.str (zh_chapter_title i))) ∧
      (∀ cs, parsed_chapters_list
          "\x7b\x22title\x22: \x22T\x22, \x22summary\x22: \x22S\x22, \x22chapters\x22: [\x22A\x22, \x22B\x22]\x7d" = some cs →
        (cs.length < 3 →
          xs = cs ++ (List.range' cs.length (3 - cs.length)).map
            (fun i => Json.str (zh_chapter_title i))) ∧
        (3 ≤ cs.length → xs = cs.take 3)) :=
  c1_chapter_count_exact defaultService "spec" Language.english (7, 10) 3
    "\x7b\x22title\x22: \x22T\x22, \x22summary\x22: \x22S\x22, \x22chapters\x22: [\x22A\x22, \x22B\x22]\x7d" rfl

/-- C2 counterexample: the extractor can raise: a successfully parsed payload
whose chapter entry is the number `1` makes `generate_all_chapters` raise
`AttributeError` (`.get` on an int) instead of absorbing the failure. -/
theorem c2_counterexample :
    generate_all_chapters defaultService "topic" ["t"] Language.chinese (7, 10) true
      "\x7b\x22chapters\x22: [1]\x7d" = Except.error PyErr.attributeError := rfl

/-- C2 (amended): `generate_social_captions` never raises for any raw input;
`generate_book_structure` and `generate_all_chapters` never raise provided
the parsed payload's `chapters` value is well-typed (a list or absent; for
the chapter operation, with objects at the entry indices the loop accesses);
parse failure and missing fields are absorbed into fallbacks in all three. -/
theorem c2_no_exception (self : ContentAdapterService)
    (topic book_title summary : String) (chapter_titles : List String)
    (language : Language) (age_range : Int × Int) (include_illustration : Bool)
    (chapter_count : Nat) (response : String) :
    (∃ p, generate_social_captions self topic book_title summary language response =
      Except.ok p) ∧
    (structure_payload_well_typed response = true →
      ∃ r, generate_book_structure self topic language age_range chapter_count
        response = Except.ok r) ∧
    (chapters_payload_well_typed chapter_titles.length response = true →
      ∃ l, generate_all_chapters self topic chapter_titles language age_range
        include_illustration response = Except.ok l) := by
  refine ⟨generate_social_captions_ok self topic book_title summary language response,
    ?_, ?_⟩
  · intro h
    obtain ⟨r, xs, hr, _⟩ :=
      structure_extract_full self topic language age_range chapter_count response h
    exact ⟨r, hr⟩
  · intro h
    obtain ⟨l, hl, _⟩ :=
      chapters_extract_full self topic chapter_titles language age_range
        include_illustration response h
    exact ⟨l, hl⟩

/-- C2 witness: all three operations return normally on a concrete payload. -/
theorem c2_witness :
    (∃ p, generate_social_captions defaultService "t2" "b" "s" Language.english
      "\x7b\x22chapters\x22: []\x7d" = Except.ok p) ∧
    (∃ r, generate_book_structure defaultService "t2" Language.english (7, 10) 2
      "\x7b\x22chapters\x22: []\x7d" = Except.ok r) ∧
    (∃ l, generate_all_chapters defaultService "t2" ["a"] Language.english (7, 10) true
      "\x7b\x22chapters\x22: []\x7d" = Except.ok l) := by
  have h := c2_no_exception defaultService "t2" "b" "s" ["a"] Language.english
    (7, 10) true 2 "\x7b\x22chapters\x22: []\x7d"
  exact ⟨h.1, h.2.1 rfl, h.2.2 rfl⟩

/-- C3 counterexample: a parsed chapter entry that is a string, not an
object, makes `generate_all_chapters` raise `AttributeError` instead of
degrading that index independently. -/
theorem c3_counterexample :
    generate_all_chapters defaultService "t" ["a"] Language.chinese (7, 10) true
      "\x7b\x22chapters\x22: [\x22x\x22]\x7d" = Except.error PyErr.attributeError := rfl

/-- C3 (amended): for every chapter-title list of length M and raw text whose
payload, when it parses, binds `chapters` to a list whose first M entries are
objects (or omits the key; entries beyond index M are never accessed),
`generate_all_chapters` returns exactly M records; record i is built from
parsed entry i when it exists (content defaulting to the empty string,
knowledge points to the empty list, illustration prompt taken only if
requested, else null), an index with no entry gets the topic-referencing
filler body, and total parse failure yields per-index topic-referencing
placeholder bodies with empty knowledge points and null illustration
prompts. -/
theorem c3_per_index (self : ContentAdapterService) (topic : String)
    (chapter_titles : List String) (language : Language) (age_range : Int × Int)
    (include_illustration : Bool) (response : String)
    (h : chapters_payload_well_typed chapter_titles.length response = true) :
    ∃ l,
      generate_all_chapters self topic chapter_titles language age_range
        include_illustration response = Except.ok l ∧
      l.length = chapter_titles.length ∧
      (parse_failed response = true →
        l = (List.range chapter_titles.length).map
          (fun i => ⟨Json.str (zh_chapter_fallback_body topic i), Json.arr [], Json.null⟩)) ∧
      (∀ cs, parsed_chapters_list response = some cs →
        l = (List.range chapter_titles.length).map (fun i =>
          if i < cs.length then
            ⟨dictGetD (objFields (cs.getD i Json.null)) "content" (Json.str ""),
             dictGetD (objFields (cs.getD i Json.null)) "knowledge_points" (Json.arr []),
             if include_illustration then
               dictGetD (objFields (cs.getD i Json.null)) "illustration_prompt" Json.null
             else Json.null⟩
          else ⟨Json.str (zh_chapter_filler topic), Json.arr [], Json.null⟩)) :=
  chapters_extract_full self topic chapter_titles language age_range
    include_illustration response h

/-- C3 witness: one parsed entry, two requested chapters. -/
theorem c3_witness :
    ∃ l,
      generate_all_chapters defaultService "t3" ["c1", "c2"] Language.english (7, 10)
        true "go \x7b\x22chapters\x22: [\x7b\x22content\x22: \x22X\x22, \x22knowledge_points\x22: [\x22k\x22]\x7d]\x7d done" =
        Except.ok l ∧
      l.length = (["c1", "c2"] : List String).length ∧
      (parse_failed
          "go \x7b\x22chapters\x22: [\x7b\x22content\x22: \x22X\x22, \x22knowledge_points\x22: [\x22k\x22]\x7d]\x7d done" = true →
        l = (List.range (["c1", "c2"] : List String).length).map
          (fun i => ⟨Json.str (zh_chapter_fallback_body "t3" i), Json.arr [], Json.null⟩)) ∧
      (∀ cs, parsed_chapters_list
          "go \x7b\x22chapters\x22: [\x7b\x22content\x22: \x22X\x22, \x22knowledge_points\x22: [\x22k\x22]\x7d]\x7d done" = some cs →
        l = (List.range (["c1", "c2"] : List String).length).map (fun i =>
          if i < cs.length then
            ⟨dictGetD (objFields (cs.getD i Json.null)) "content" (Json.str ""),
             dictGetD (objFields (cs.getD i Json.null)) "knowledge_points" (Json.arr []),
             if true then
               dictGetD (objFields (cs.getD i Json.null)) "illustration_prompt" Json.null
             else Json.null⟩
          else ⟨Json.str (zh_chapter_filler "t3"), Json.arr [], Json.null⟩)) :=
  c3_per_index defaultService "t3" ["c1", "c2"] Language.english (7, 10) true
    "go \x7b\x22chapters\x22: [\x7b\x22content\x22: \x22X\x22, \x22knowledge_points\x22: [\x22k\x22]\x7d]\x7d done" rfl

/-- C4 counterexample: a payload that explicitly binds both caption keys to
the empty string is passed through, so both returned fields are empty. -/
theorem c4_counterexample :
    generate_social_captions defaultService "恐龙" "bt" "sm" Language.chinese
      "\x7b\x22zh\x22: \x22\x22, \x22en\x22: \x22\x22\x7d" =
      Except.ok ⟨Json.str "", Json.str ""⟩ := rfl

/-- C4 (amended): for every raw text input whose parsed payload does not
itself bind a caption key to the empty string, `generate_social_captions`
returns a pair in which that field is not the empty string: each field is
either the payload's value or the deterministic topic-embedding template. -/
theorem c4_nonempty_fields (self : ContentAdapterService)
    (topic book_title summary : String) (language : Language) (response : String)
    (hzh : caption_field_empty_in_payload response "zh" = false)
    (hen : caption_field_empty_in_payload response "en" = false) :
    ∃ p, generate_social_captions self topic book_title summary language response =
      Except.ok p ∧ p.zh ≠ Json.str "" ∧ p.en ≠ Json.str "" := by
  rcases hp : parsed_payload response with _ | j
  · refine ⟨captions_fallback topic, ?_, ?_, ?_⟩
    · rw [generate_social_captions_eq, hp]
    · intro heq
      injection heq with hs
      exact zh_caption_default_ne_empty topic hs
    · intro heq
      injection heq with hs
      exact en_caption_default_ne_empty topic hs
  · obtain ⟨kvs, rfl⟩ := parsed_payload_obj response j hp
    refine ⟨⟨dictGetD kvs "zh" (Json.str (zh_caption_default topic)),
      dictGetD kvs "en" (Json.str (en_caption_default topic))⟩, ?_, ?_, ?_⟩
    · rw [generate_social_captions_eq, hp]
      rfl
    · rcases caption_field_of_obj response kvs "zh"
          (Json.str (zh_caption_default topic)) hp hzh with hne | hdflt
      · exact hne
      · injection hdflt with hs
        exact absurd hs (zh_caption_default_ne_empty topic)
    · rcases caption_field_of_obj response kvs "en"
          (Json.str (en_caption_default topic)) hp hen with hne | hdflt
      · exact hne
      · injection hdflt with hs
        exact absurd hs (en_caption_default_ne_empty topic)

/-- C4 witness: non-JSON input yields the two non-empty template captions. -/
theorem c4_witness :
    ∃ p, generate_social_captions defaultService "恐龙" "bt" "sm" Language.chinese
      "garbage" = Except.ok p ∧ p.zh ≠ Json.str "" ∧ p.en ≠ Json.str "" :=
  c4_nonempty_fields defaultService "恐龙" "bt" "sm" Language.chinese "garbage"
    rfl rfl

/-- C5 counterexample: a payload that omits `summary` gets the empty string,
not the topic-and-age-range default the claim describes. -/
theorem c5_counterexample :
    generate_book_structure defaultService "X" Language.chinese (7, 10) 1
      "\x7b\x22title\x22: \x22T\x22, \x22chapters\x22: []\x7d" =
      Except.ok ⟨Json.str "T", Json.str "", Json.arr [Json.str "第1章"]⟩ ∧
    (Json.str "" : Json) ≠ Json.str (fallback_summary "X" (7, 10)) := by
  constructor
  · rfl
  · intro heq
    injection heq with hs
    exact absurd hs (by decide)

/-- C5 (amended): on a successfully parsed object payload (with a well-typed
chapters value), a missing `title` key individually falls back to the
topic-derived template while a missing `summary` key falls back to the empty
string, and present keys are used as given (partial fallback, not
all-or-nothing). -/
theorem c5_partial_fallback (self : ContentAdapterService) (topic : String)
    (language : Language) (age_range : Int × Int) (chapter_count : Nat)
    (response : String) (kvs : List (String × Json))
    (hp : parsed_payload response = some (Json.obj kvs))
    (hwt : structure_payload_well_typed response = true) :
    ∃ r, generate_book_structure self topic language age_range chapter_count
        response = Except.ok r ∧
      (dictLookup kvs "title" = none → r.title = Json.str (fallback_title topic)) ∧
      (∀ v, dictLookup kvs "title" = some v → r.title = v) ∧
      (dictLookup kvs "summary" = none → r.summary = Json.str "") ∧
      (∀ v, dictLookup kvs "summary" = some v → r.summary = v) := by
  unfold structure_payload_well_typed at hwt
  have hpf : parse_failed response = false := by
    unfold parse_failed
    rw [hp]
    rfl
  rw [hpf] at hwt
  simp only [Bool.false_or] at hwt
  obtain ⟨cs, hcs⟩ := Option.isSome_iff_exists.mp hwt
  obtain ⟨kvs2, hkvs2, hch⟩ := parsed_chapters_list_spec response cs hcs
  rw [hp] at hkvs2
  have hch2 : dictGetD kvs "chapters" (Json.arr []) = Json.arr cs := by
    have h4 : kvs = kvs2 := by
      injection hkvs2 with h2
      injection h2
    rw [h4]
    exact hch
  have hgen : generate_book_structure self topic language age_range chapter_count
      response = structure_success_path topic chapter_count (Json.obj kvs) := by
    rw [generate_book_structure_eq, hp]
  rw [hgen, structure_success_path_arr topic chapter_count kvs cs hch2]
  refine ⟨_, rfl, ?_, ?_, ?_, ?_⟩
  · intro hnone
    exact dictGetD_of_none kvs "title" (Json.str (fallback_title topic)) hnone
  · intro v hv
    exact dictGetD_of_some kvs "title" (Json.str (fallback_title topic)) v hv
  · intro hnone
    exact dictGetD_of_none kvs "summary" (Json.str "") hnone
  · intro v hv
    exact dictGetD_of_some kvs "summary" (Json.str "") v hv

/-- C5 witness: a payload with `summary` present and `title` missing. -/
theorem c5_witness :
    ∃ r, generate_book_structure defaultService "topic5" Language.english (7, 10) 1
        "\x7b\x22summary\x22: \x22S\x22, \x22chapters\x22: []\x7d" = Except.ok r ∧
      (dictLookup [("summary", Json.str "S"), ("chapters", Json.arr [])] "title" =
          none → r.title = Json.str (fallback_title "topic5")) ∧
      (∀ v, dictLookup [("summary", Json.str "S"), ("chapters", Json.arr [])] "title" =
          some v → r.title = v) ∧
      (dictLookup [("summary", Json.str "S"), ("chapters", Json.arr [])] "summary" =
          none → r.summary = Json.str "") ∧
      (∀ v, dictLookup [("summary", Json.str "S"), ("chapters", Json.arr [])] "summary" =
          some v → r.summary = v) :=
  c5_partial_fallback defaultService "topic5" Language.english (7, 10) 1
    "\x7b\x22summary\x22: \x22S\x22, \x22chapters\x22: []\x7d"
    [("summary", Json.str "S"), ("chapters", Json.arr [])] rfl rfl

/-- C6: for every raw text input to any of the three extraction operations,
the substring handed to the JSON parser is exactly the span from the first
opening brace to the last closing brace of the text; when either brace is
absent the operation returns the full fallback immediately without attempting
a parse, and no smarter brace matching is performed. -/
theorem c6_brace_scan (self : ContentAdapterService) (topic book_title summary : String)
    (chapter_titles : List String) (language : Language) (age_range : Int × Int)
    (include_illustration : Bool) (chapter_count : Nat) (response : String) :
    (∀ sub, braceSlice response = some sub →
      ∃ i j, response.data.get? i = some '\x7b' ∧
        (∀ k, k < i → response.data.get? k ≠ some '\x7b') ∧
        response.data.get? j = some '\x7d' ∧
        (∀ k, j < k → response.data.get? k ≠ some '\x7d') ∧
        sub = String.mk ((response.data.drop i).take (j + 1 - i))) ∧
    ('\x7b' ∈ response.data → '\x7d' ∈ response.data →
      ∃ sub, braceSlice response = some sub) ∧
    (braceSlice response = none →
      ('\x7b' ∉ response.data ∨ '\x7d' ∉ response.data) ∧
      generate_book_structure self topic language age_range chapter_count response =
        Except.ok (structure_fallback topic age_range chapter_count) ∧
      generate_all_chapters self topic chapter_titles language age_range
          include_illustration response =
        Except.ok (chapters_full_fallback topic chapter_titles.length) ∧
      generate_social_captions self topic book_title summary language response =
        Except.ok (captions_fallback topic)) := by
  refine ⟨fun sub h => braceSlice_some_spec response sub h,
    fun h1 h2 => braceSlice_mem response h1 h2,
    fun hb => ⟨braceSlice_none_spec response hb, ?_, ?_, ?_⟩⟩
  · unfold generate_book_structure
    rw [hb]
  · unfold generate_all_chapters
    rw [hb]
  · unfold generate_social_captions
    rw [hb]

/-- C6 witness: on the concrete response `a\x7bb\x7dc` the slice handed to
the parser spans the first opening brace to the last closing brace. -/
theorem c6_witness :
    ∃ i j, ("a\x7bb\x7dc" : String).data.get? i = some '\x7b' ∧
      (∀ k, k < i → ("a\x7bb\x7dc" : String).data.get? k ≠ some '\x7b') ∧
      ("a\x7bb\x7dc" : String).data.get? j = some '\x7d' ∧
      (∀ k, j < k → ("a\x7bb\x7dc" : String).data.get? k ≠ some '\x7d') ∧
      "\x7bb\x7d" = String.mk ((("a\x7bb\x7dc" : String).data.drop i).take (j + 1 - i)) :=
  (c6_brace_scan defaultService "t" "b" "s" [] Language.english (7, 10) true 1
    "a\x7bb\x7dc").1 "\x7bb\x7d" rfl

/-- C7 counterexample: the full-fallback title is not built from a template
specific to the requested language: requesting English yields the fixed
Chinese-language template, and the result is identical to the one produced
for the Chinese language. -/
theorem c7_counterexample :
    generate_book_structure defaultService "Space" Language.english (7, 10) 1 "no json" =
      Except.ok ⟨Json.str "探索Space的奇妙世界",
        Json.str "一本为7-10岁儿童准备的关于Space的趣味绘本。",
        Json.arr [Json.str "第1章"]⟩ ∧
    generate_book_structure defaultService "Space" Language.english (7, 10) 1 "no json" =
      generate_book_structure defaultService "Space" Language.chinese (7, 10) 1 "no json" ∧
    Language.english ≠ Language.chinese :=
  ⟨rfl, rfl, by decide⟩

/-- C7 (amended): when `generate_book_structure` takes its full-fallback path
(no locatable brace pair or unparsable payload), the returned title is built
from the topic using one fixed template (the same for every requested
language), the summary is built from topic and age range, and the chapter
titles are `chapter_count` generic placeholders; the whole result is
independent of the requested language. -/
theorem c7_full_fallback (self : ContentAdapterService) (topic : String)
    (language : Language) (age_range : Int × Int) (chapter_count : Nat)
    (response : String) (h : parse_failed response = true) :
    generate_book_structure self topic language age_range chapter_count response =
      Except.ok ⟨Json.str ("探索" ++ topic ++ "的奇妙世界"),
        Json.str ("一本为" ++ toString age_range.1 ++ "-" ++ toString age_range.2 ++
          "岁儿童准备的关于" ++ topic ++ "的趣味绘本。"),
        Json.arr ((List.range chapter_count).map
          (fun i => Json.str ("第" ++ toString (i + 1) ++ "章")))⟩ ∧
    (∀ language2 : Language,
      generate_book_structure self topic language age_range chapter_count response =
        generate_book_structure self topic language2 age_range chapter_count response) := by
  constructor
  · have hp : parsed_payload response = none := by
      unfold parse_failed at h
      exact Option.isNone_iff_eq_none.mp h
    rw [generate_book_structure_eq, hp]
    rfl
  · intro language2
    rfl

/-- C7 witness: the full-fallback record at a concrete unparsable response. -/
theorem c7_witness :
    generate_book_structure defaultService "恐龙" Language.japanese (7, 10) 2 "garbage" =
      Except.ok ⟨Json.str ("探索" ++ "恐龙" ++ "的奇妙世界"),
        Json.str ("一本为" ++ toString (7 : Int) ++ "-" ++ toString (10 : Int) ++
          "岁儿童准备的关于" ++ "恐龙" ++ "的趣味绘本。"),
        Json.arr ((List.range 2).map
          (fun i => Json.str ("第" ++ toString (i + 1) ++ "章")))⟩ :=
  (c7_full_fallback defaultService "恐龙" Language.japanese (7, 10) 2 "garbage" rfl).1

/-- C8: the merge loop of `KnowledgeSearchService.search` keeps the topic,
excludes every branch outcome that is an exception, and appends the content
and sources of every non-failing branch in order; `search` itself returns
normally for every combination of branch outcomes. -/
theorem c8_search_merge (topic : String) (outcomes : List BranchOutcome) :
    search topic outcomes =
      { topic := topic,
        content := (outcomes.map branchContent).join,
        sources := (outcomes.map branchSources).join } := by
  unfold search
  rw [search_foldl]
  simp

/-- C9: the extraction-and-normalization stage of each of the three
operations is deterministic and reads nothing from the service state: two
invocations on the same raw model output and parameters, with arbitrarily
different service states, produce identical result records. -/
theorem c9_extraction_deterministic (self self2 : ContentAdapterService)
    (topic book_title summary : String) (chapter_titles : List String)
    (language : Language) (age_range : Int × Int) (chapter_count : Nat)
    (include_illustration : Bool) (response : String) :
    generate_book_structure self topic language age_range chapter_count response =
      generate_book_structure self2 topic language age_range chapter_count response ∧
    generate_all_chapters self topic chapter_titles language age_range
        include_illustration response =
      generate_all_chapters self2 topic chapter_titles language age_range
        include_illustration response ∧
    generate_social_captions self topic book_title summary language response =
      generate_social_captions self2 topic book_title summary language response :=
  ⟨rfl, rfl, rfl⟩

/-- C10: constructing a `BookConfig` rejects any `chapter_count` outside
`[3, 10]` with a validation error, so every successfully constructed
configuration (the only way the pipeline obtains a chapter count to request)
carries a `chapter_count` in `[3, 10]`. -/
theorem c10_chapter_count_bounds (topic : String) (language : Language)
    (age_range : Int × Int) (chapter_count : Int) (include_illustrations : Bool) :
    (∀ cfg, BookConfig.validate topic language age_range chapter_count
        include_illustrations = Except.ok cfg →
      3 ≤ cfg.chapter_count ∧ cfg.chapter_count ≤ 10) ∧
    (chapter_count < 3 ∨ 10 < chapter_count →
      BookConfig.validate topic language age_range chapter_count
          include_illustrations =
        Except.error ValidationError.chapter_count_out_of_range) := by
  constructor
  · intro cfg hok
    unfold BookConfig.validate at hok
    by_cases hc : 3 ≤ chapter_count ∧ chapter_count ≤ 10
    · rw [if_pos hc] at hok
      injection hok with h2
      rw [← h2]
      exact hc
    · rw [if_neg hc] at hok
      cases hok
  · intro hout
    unfold BookConfig.validate
    rw [if_neg (by omega)]

/-- C10 witness: `chapter_count = 5` is accepted with its bounds, and
`chapter_count = 11` is rejected. -/
theorem c10_witness :
    (3 ≤ (⟨"t", Language.english, (7, 10), 5, true⟩ : BookConfig).chapter_count ∧
      (⟨"t", Language.english, (7, 10), 5, true⟩ : BookConfig).chapter_count ≤ 10) ∧
    BookConfig.validate "t" Language.english (7, 10) 11 true =
      Except.error ValidationError.chapter_count_out_of_range :=
  ⟨(c10_chapter_count_bounds "t" Language.english (7, 10) 5 true).1
      ⟨"t", Language.english, (7, 10), 5, true⟩ rfl,
    (c10_chapter_count_bounds "t" Language.english (7, 10) 11 true).2
      (Or.inr (by omega))⟩

end PictureBookGen
